import Mathlib

/-!
Verification development for the mechanic node-maintenance agent.

The definitions in this file are a shallow embedding of the Go sources:
  - pkg/imds (scheduled-event probing and drain decisions),
  - pkg/node (cordon / drain / cordon-ownership reconciliation),
  - pkg/bypass (polling driver interval computation),
  - internal/config (drain-condition policies).

Modelling conventions:
  - Go strings are modelled as Lean `String`; node names are assumed ASCII
    (Kubernetes RFC-1123 names), where Go byte indexing and Lean character
    indexing coincide.
  - A Go runtime panic is modelled by a dedicated result constructor
    (`GoResult.panicked`) or by `Option.none` for the JSON decoder.
  - Go `(T, error)` returns are modelled as a value paired with
    `Option String` (`none` = nil error), or by `GoResult`.
  - Cluster-API interactions are modelled by explicit state passing over the
    live node object, with injectable failure flags (`Faults`) standing for
    the error returns of the Kubernetes client calls.
-/

namespace Mechanic

/-- Policy over VM scheduled events (internal/config/config.go,
`ScheduledEventDrainConditions`). -/
structure ScheduledEventDrainConditions where
  freeze : Bool
  reboot : Bool
  redeploy : Bool
  preempt : Bool
  terminate : Bool
  liveMigration : Bool
deriving DecidableEq

/-- Policy over optional host-health node conditions (internal/config/config.go,
`OptionalDrainConditions`). The polling interval is carried in the struct but,
as proved below, never consumed by the polling driver. -/
structure OptionalDrainConditions where
  kubeletProblem : Bool
  kernelDeadlock : Bool
  frequentKubeletRestarts : Bool
  frequentContainerdRestarts : Bool
  fsCorrupt : Bool
  pollingInterval : Int
deriving DecidableEq

/-- `(*ScheduledEventDrainConditions).DrainableConditions` from
internal/config/config.go: the node-condition names enabled by the scheduled
event policy (consts from pkg/consts/consts.go). -/
def ScheduledEventDrainConditions.drainableConditions
    (dc : ScheduledEventDrainConditions) : List String :=
  (if dc.freeze || dc.liveMigration then ["FreezeScheduled"] else []) ++
  (if dc.reboot then ["RebootScheduled"] else []) ++
  (if dc.redeploy then ["RedeployScheduled"] else []) ++
  (if dc.preempt then ["PreemptScheduled"] else []) ++
  (if dc.terminate then ["TerminateScheduled"] else [])

/-- `(*OptionalDrainConditions).OptionalDrainableConditions` from
internal/config/config.go. -/
def OptionalDrainConditions.optionalDrainableConditions
    (oc : OptionalDrainConditions) : List String :=
  (if oc.kubeletProblem then ["KubeletProblem"] else []) ++
  (if oc.kernelDeadlock then ["KernelDeadlock"] else []) ++
  (if oc.frequentKubeletRestarts then ["FrequentKubeletRestart"] else []) ++
  (if oc.frequentContainerdRestarts then ["FrequentContainerdRestart"] else []) ++
  (if oc.fsCorrupt then ["FileSystemCorruptionProblem"] else [])

/-- Outcome of a Go function that can panic, return a non-nil error, or
return a value. -/
inductive GoResult (α : Type) where
  | panicked
  | errored
  | ok (val : α)
deriving DecidableEq

/-- Go `strings.Contains hay sub` on character lists: some tail of `hay`
starts with `sub`. -/
def containsSub (sub : List Char) : List Char → Bool
  | [] => sub.isEmpty
  | c :: t => sub.isPrefixOf (c :: t) || containsSub sub t

/-- Go `strings.Contains` on strings. -/
def goStrContains (hay sub : String) : Bool :=
  containsSub sub.toList hay.toList

/-- Value of one base-36 digit as parsed by Go `strconv.ParseUint` with base
36: ASCII digits and letters of either case. -/
def base36DigitVal (c : Char) : Option Nat :=
  if '0' ≤ c ∧ c ≤ '9' then some (c.toNat - '0'.toNat)
  else if 'a' ≤ c ∧ c ≤ 'z' then some (c.toNat - 'a'.toNat + 10)
  else if 'A' ≤ c ∧ c ≤ 'Z' then some (c.toNat - 'A'.toNat + 10)
  else none

/-- Digit run of `strconv.ParseUint(s, 36, _)`: nonempty, every character a
base-36 digit. -/
def parseBase36Digits (cs : List Char) : Option Nat :=
  if cs.isEmpty then none
  else
    cs.foldl
      (fun acc c =>
        match acc, base36DigitVal c with
        | some a, some d => some (a * 36 + d)
        | _, _ => none)
      (some 0)

/-- Go `strconv.ParseInt(s, 36, 64)`: optional sign, nonempty base-36 digit
run, 64-bit range check (out of range is an error return in Go since the
caller treats any non-nil error as failure). -/
def parseIntBase36 (s : String) : Option Int :=
  match s.toList with
  | [] => none
  | c :: rest =>
    let signed : Bool × List Char :=
      if c = '+' then (false, rest)
      else if c = '-' then (true, rest)
      else (false, c :: rest)
    match parseBase36Digits signed.2 with
    | none => none
    | some n =>
      if signed.1 then
        if n ≤ 2 ^ 63 then some (-(n : Int)) else none
      else
        if n ≤ 2 ^ 63 - 1 then some (n : Int) else none

/-- The Go slice `node.Name[len(node.Name)-6:]`: the last six characters. -/
def nodeNameTail6 (nodeName : String) : String :=
  String.mk (nodeName.toList.drop (nodeName.toList.length - 6))

/-- The Go slice `node.Name[:len(node.Name)-6]`: all but the last six
characters. -/
def nodeNameHead (nodeName : String) : String :=
  String.mk (nodeName.toList.take (nodeName.toList.length - 6))

/-- `getInstanceName` from pkg/imds (part_020 lines 255-278): slice the last
six characters of the node name (a Go slice `name[len-6:]`, which panics when
the name is shorter than six characters), base-36 decode them, and format
`<vm>_<decoded>`. -/
def getInstanceName (nodeName : String) : GoResult String :=
  if nodeName.length < 6 then .panicked
  else
    match parseIntBase36 (nodeNameTail6 nodeName) with
    | none => .errored
    | some decoded => .ok (nodeNameHead nodeName ++ "_" ++ toString decoded)

/-- One scheduled event as decoded from IMDS (pkg/imds, `ScheduledEvent`).
Event type, status and source are wire strings. Fields not read by the drain
logic are carried for record fidelity. -/
structure ScheduledEvent where
  eventId : String
  eventType : String
  resourceType : String
  resources : List String
  eventStatus : String
  description : String
  eventSource : String
  durationSeconds : Int
deriving DecidableEq

/-- The `eventDrainableConditions` map built in `CheckIfDrainRequired`
(part_020 lines 106-112); lookup of any other key yields the Go zero value
`false`. -/
def eventDrainableConditions (sdc : ScheduledEventDrainConditions)
    (t : String) : Bool :=
  if t = "Reboot" then sdc.reboot
  else if t = "Redeploy" then sdc.redeploy
  else if t = "Preempt" then sdc.preempt
  else if t = "Terminate" then sdc.terminate
  else if t = "Freeze" then sdc.freeze
  else false

/-- `isNodeImpacted` from pkg/imds (part_020 lines 226-253): derive the
instance name and test whether any resource of a "VirtualMachine" event
equals or contains it. -/
def isNodeImpacted (nodeName : String) (ev : ScheduledEvent) : GoResult Bool :=
  match getInstanceName nodeName with
  | .panicked => .panicked
  | .errored => .errored
  | .ok inst =>
    .ok (ev.resourceType == "VirtualMachine" &&
         ev.resources.any (fun v => v == inst || goStrContains v inst))

/-- The literal the drain logic uses to spot a live migration. -/
def lmPhrase : String := "memory-preserving Live Migration"

/-- The event loop of `CheckIfDrainRequired` (part_020 lines 115-150). -/
def drainLoop (nodeName : String) (sdc : ScheduledEventDrainConditions) :
    List ScheduledEvent → GoResult Bool
  | [] => .ok false
  | ev :: rest =>
    match isNodeImpacted nodeName ev with
    | .panicked => .panicked
    | .errored => .errored
    | .ok impacted =>
      if impacted then
        if ev.eventType != "Freeze" && eventDrainableConditions sdc ev.eventType then
          .ok true
        else if ev.eventType == "Freeze" then
          if !eventDrainableConditions sdc ev.eventType then
            if goStrContains ev.description lmPhrase then .ok true
            else drainLoop nodeName sdc rest
          else .ok true
        else drainLoop nodeName sdc rest
      else drainLoop nodeName sdc rest

/-- `CheckIfDrainRequired` from pkg/imds (part_020 lines 64-153) after a
successful IMDS query returning `events` (the retry loop around the query is
modelled separately as `imdsRetryLoop`). -/
def checkIfDrainRequiredEvents (nodeName : String)
    (sdc : ScheduledEventDrainConditions) (events : List ScheduledEvent) :
    GoResult Bool :=
  if events.isEmpty then .ok false
  else drainLoop nodeName sdc events

/-! ## Node-object and cluster model (pkg/node, part_023) -/

/-- Status of one node condition. -/
inductive ConditionStatus where
  | condTrue
  | condFalse
  | condUnknown
deriving DecidableEq

/-- One entry of `node.Status.Conditions`. -/
structure NodeCondition where
  condType : String
  status : ConditionStatus
deriving DecidableEq

/-- The slice of the Kubernetes node object the agent reads and writes:
`spec.unschedulable`, the value of the `mechanic.cordoned` label when present,
and the status conditions. -/
structure KNode where
  unschedulable : Bool
  mechanicCordonLabel : Option String
  conditions : List NodeCondition
deriving DecidableEq

/-- Agent state (internal/appstate `State`, minus the mutex). -/
structure AgentState where
  hasDrainableCondition : Bool
  conditionIsScheduledEvent : Bool
  isCordoned : Bool
  isDrained : Bool
  shouldDrain : Bool
deriving DecidableEq

/-- Failure injection for the cluster-API and drain-helper calls made by
pkg/node: each flag makes the corresponding call return a non-nil error. -/
structure Faults where
  cordonUpdateConflict : Bool
  cordonRefetchErr : Bool
  uncordonUpdateConflict : Bool
  labelRemoveConflict : Bool
  drainErr : Bool
  refetchErr : Bool
deriving DecidableEq

/-- All cluster calls succeed. -/
def Faults.clean : Faults :=
  { cordonUpdateConflict := false, cordonRefetchErr := false,
    uncordonUpdateConflict := false, labelRemoveConflict := false,
    drainErr := false, refetchErr := false }

/-- Observable side effects of a reconcile pass: recorder events
(`etype` is "Normal" or "Warning") and cluster/API actions. -/
structure RecorderEvent where
  etype : String
  reason : String
deriving DecidableEq

/-- Cluster interactions traced by the model: node-update writes of the
cordon, uncordon and label-removal read-modify-write loops, plus invocations
of `cordonNode`, `uncordonNode` and the drain helper. -/
inductive ClusterAct where
  | cordonWrite
  | uncordonWrite
  | labelRemoveWrite
  | cordonCall
  | uncordonCall
  | drainCall
deriving DecidableEq

/-- `cordonNode` from pkg/node (part_023 lines 44-110). `snap` is the node
object handed to the function, `live` the current cluster node read by the
read-modify-write loop and the post-condition re-fetch. Returns the Go
`(cordoned, error)` pair, the updated agent state, the updated cluster node,
and the traced actions. -/
def cordonNode (f : Faults) (st : AgentState) (snap live : KNode) :
    (Bool × Option String) × AgentState × KNode × List ClusterAct :=
  if snap.unschedulable then
    ((true, none), { st with isCordoned := true }, live, [])
  else
    if f.cordonUpdateConflict then
      ((false, some "retry error"), st, live, [.cordonWrite])
    else
      let live1 := { live with unschedulable := true,
                               mechanicCordonLabel := some "true" }
      if f.cordonRefetchErr then
        ((false, some "get error"), st, live1, [.cordonWrite])
      else if !live1.unschedulable then
        ((false, some "node was not cordoned"), st, live1, [.cordonWrite])
      else if live1.mechanicCordonLabel ≠ some "true" then
        ((false, some "node was not labeled as cordoned by mechanic"), st,
         live1, [.cordonWrite])
      else
        ((true, none), st, live1, [.cordonWrite])

/-- `uncordonNode` from pkg/node (part_023 lines 112-146): read-modify-write
clearing `unschedulable` and deleting the ownership label; on success the
agent state records `isCordoned := false`. -/
def uncordonNode (f : Faults) (st : AgentState) (live : KNode) :
    Option String × AgentState × KNode × List ClusterAct :=
  if f.uncordonUpdateConflict then
    (some "retry error", st, live, [.uncordonWrite])
  else
    (none, { st with isCordoned := false },
     { live with unschedulable := false, mechanicCordonLabel := none },
     [.uncordonWrite])

/-- `removeMechanicCordonLabel` from pkg/node (part_023 lines 341-366);
a failed update only logs. -/
def removeMechanicCordonLabel (f : Faults) (live : KNode) :
    KNode × List ClusterAct :=
  if f.labelRemoveConflict then (live, [.labelRemoveWrite])
  else ({ live with mechanicCordonLabel := none }, [.labelRemoveWrite])

/-- `drainNode` from pkg/node (part_023 lines 148-179): delegate to the drain
helper; the node object is not modified by this layer. -/
def drainNode (f : Faults) : (Bool × Option String) × List ClusterAct :=
  if f.drainErr then ((false, some "drain error"), [.drainCall])
  else ((true, none), [.drainCall])

/-- `validateCordon` from pkg/node (part_023 lines 181-270). `snap` is the
node object passed in; `live` the current cluster node operated on by the
nested calls. Returns updated state, cluster node, recorder events and traced
actions. -/
def validateCordon (f : Faults) (st : AgentState) (snap live : KNode) :
    AgentState × KNode × List RecorderEvent × List ClusterAct :=
  if st.hasDrainableCondition then
    if st.isCordoned && !snap.unschedulable then
      let r := cordonNode f st snap live
      match r.1 with
      | (_, some _) =>
        (r.2.1, r.2.2.1, [⟨"Warning", "CordonNode"⟩], .cordonCall :: r.2.2.2)
      | (b, none) =>
        ({ r.2.1 with isCordoned := b }, r.2.2.1,
         [⟨"Normal", "CordonNode"⟩], .cordonCall :: r.2.2.2)
    else if !st.isCordoned && snap.unschedulable then
      ({ st with isCordoned := true }, live, [], [])
    else
      (st, live, [], [])
  else
    let step :
        AgentState × KNode × List RecorderEvent × List ClusterAct :=
      if st.isCordoned then
        if snap.mechanicCordonLabel.isSome then
          let r := uncordonNode f st live
          match r.1 with
          | some _ =>
            (r.2.1, r.2.2.1, [⟨"Warning", "UncordonNode"⟩],
             .uncordonCall :: r.2.2.2)
          | none =>
            ({ r.2.1 with isCordoned := false }, r.2.2.1,
             [⟨"Normal", "UncordonNode"⟩], .uncordonCall :: r.2.2.2)
        else
          ({ st with isCordoned := true }, live, [], [])
      else
        if snap.unschedulable then
          if snap.mechanicCordonLabel.isSome then
            let r := uncordonNode f st live
            match r.1 with
            | some _ =>
              (r.2.1, r.2.2.1, [⟨"Warning", "UncordonNode"⟩],
               .uncordonCall :: r.2.2.2)
            | none =>
              let lr := removeMechanicCordonLabel f r.2.2.1
              ({ r.2.1 with isCordoned := false }, lr.1,
               [⟨"Normal", "UncordonNode"⟩],
               .uncordonCall :: (r.2.2.2 ++ lr.2))
          else
            (st, live, [], [])
        else
          (st, live, [], [])
    let st3 :=
      if step.1.shouldDrain then { step.1 with shouldDrain := false }
      else step.1
    let st4 := if st3.isDrained then { st3 with isDrained := false } else st3
    (st4, step.2.1, step.2.2.1, step.2.2.2)

/-- `HandleNodeCordonAndDrain` from pkg/node (part_023 lines 369-423).
`snap` is the node object the caller passes in; `live` the current cluster
node. The re-fetch before `validateCordon` reads `live` as it stands after
the act phase. -/
def handleNodeCordonAndDrain (f : Faults) (st : AgentState)
    (snap live : KNode) :
    AgentState × KNode × List RecorderEvent × List ClusterAct :=
  if st.hasDrainableCondition && st.shouldDrain then
    if st.isCordoned && st.isDrained then
      (st, live, [], [])
    else
      let c :
          AgentState × KNode × List RecorderEvent × List ClusterAct :=
        if st.isCordoned then
          (st, live, [⟨"Normal", "CordonNode"⟩], [])
        else
          let r := cordonNode f st snap live
          match r.1 with
          | (_, some _) =>
            (r.2.1, r.2.2.1, [⟨"Warning", "CordonNode"⟩],
             .cordonCall :: r.2.2.2)
          | (b, none) =>
            ({ r.2.1 with isCordoned := b }, r.2.2.1,
             [⟨"Normal", "CordonNode"⟩], .cordonCall :: r.2.2.2)
      let d : AgentState × List RecorderEvent × List ClusterAct :=
        if c.1.isDrained then (c.1, [], [])
        else
          let r := drainNode f
          match r.1 with
          | (_, some _) => (c.1, [⟨"Warning", "DrainNode"⟩], r.2)
          | (b, none) =>
            ({ c.1 with isDrained := b }, [⟨"Normal", "DrainNode"⟩], r.2)
      if f.refetchErr then
        (d.1, c.2.1, c.2.2.1 ++ d.2.1, c.2.2.2 ++ d.2.2)
      else
        let v := validateCordon f d.1 c.2.1 c.2.1
        (v.1, v.2.1, c.2.2.1 ++ d.2.1 ++ v.2.2.1, c.2.2.2 ++ d.2.2 ++ v.2.2.2)
  else
    if f.refetchErr then (st, live, [], [])
    else
      let v := validateCordon f st live live
      (v.1, v.2.1, v.2.2.1, v.2.2.2)

/-- `CheckNodeConditions` loop body state machine (part_023 lines 294-336):
`eventResp`/`drainableResp` accumulate over the condition list with the
early break once both are set. Returns `(drainableResp, eventResp)`. -/
def checkConditionsLoop (sched opt : List String) :
    List NodeCondition → Bool → Bool → Bool × Bool
  | [], eventResp, drainableResp => (drainableResp, eventResp)
  | c :: rest, eventResp, drainableResp =>
    if eventResp && drainableResp then (drainableResp, eventResp)
    else
      let p1 : Bool × Bool :=
        if !eventResp && sched.contains c.condType then
          if c.status == ConditionStatus.condTrue then (true, true)
          else (false, drainableResp)
        else (eventResp, drainableResp)
      let d2 : Bool :=
        if !p1.2 && opt.contains c.condType then
          c.status == ConditionStatus.condTrue
        else p1.2
      checkConditionsLoop sched opt rest p1.1 d2

/-- `CheckNodeConditions` from pkg/node (part_023 lines 272-339): build the
scheduled and optional condition-name sets from policy and scan the node's
conditions. Returns `(drainableResp, eventResp)`. -/
def checkNodeConditions (conds : List NodeCondition)
    (edc : ScheduledEventDrainConditions) (odc : OptionalDrainConditions) :
    Bool × Bool :=
  let eventShouldDrain := "VMEventScheduled" :: edc.drainableConditions
  let optDrainable := odc.optionalDrainableConditions
  checkConditionsLoop eventShouldDrain optDrainable conds false false

/-! ## IMDS query retry loop (pkg/imds, part_020 lines 76-98 and 166-194) -/

/-- Outcome of one `QueryIMDS` call: success carries the decoded events;
a clean EOF is distinguished from every other transport or decode error. -/
inductive QueryOutcome where
  | ok (events : List ScheduledEvent)
  | eofErr
  | otherErr (msg : String)
deriving DecidableEq

/-- The retry loop shared verbatim by `CheckIfDrainRequired` (part_020 lines
82-98) and `CheckIfFreezeOrLiveMigration` (lines 173-189): up to `fuel`
attempts starting at index `i`; a clean EOF sleeps
`min (baseDelay * 2 ^ i) maxDelay` seconds and retries, any other error stops
the loop; exhaustion leaves the EOF error in place. Returns the final
outcome, the number of query attempts made, and the list of sleep delays in
seconds. -/
def imdsRetryGo (results : Nat → QueryOutcome) :
    Nat → Nat → QueryOutcome × Nat × List Nat
  | i, 0 => (.eofErr, i, [])
  | i, fuel + 1 =>
    match results i with
    | .ok r => (.ok r, i + 1, [])
    | .otherErr m => (.otherErr m, i + 1, [])
    | .eofErr =>
      let delay := min (2 * 2 ^ i) 10
      let r := imdsRetryGo results (i + 1) fuel
      (r.1, r.2.1, delay :: r.2.2)

/-- The retry loop with the source constants `maxRetries = 3`,
`baseDelay = 2s`, `maxDelay = 10s`. -/
def imdsRetryLoop (results : Nat → QueryOutcome) :
    QueryOutcome × Nat × List Nat :=
  imdsRetryGo results 0 3

/-! ## Polling driver interval (pkg/bypass/bypass.go lines 18-25) -/

/-- `const PollingInterval = 10 * time.Second`, in nanoseconds. -/
def pollingIntervalConst : Int := 10 * 1000000000

/-- Go conversion `time.Duration(f)` of a float: truncation toward zero. -/
def ratTruncToward0 (q : ℚ) : Int :=
  if 0 ≤ q then Int.floor q else Int.ceil q

/-- `calculateJitteredInterval` from pkg/bypass/bypass.go lines 21-25, with
the `rng.Float64()` sample represented exactly as a rational `r ∈ [0,1)`
(exact for dyadic sample values such as `1/2`):
`PollingInterval + Duration((r - 0.5) * float64(time.Second) * 0.5)`,
in nanoseconds. The configured `pollingInterval` is not an input because the
source does not read it. -/
def calculateJitteredInterval (r : ℚ) : Int :=
  pollingIntervalConst + ratTruncToward0 ((r - 1/2) * 1000000000 * (1/2))

/-! ## IMDS JSON decoding (pkg/imds, part_020 lines 326-373) -/

/-- The dynamic values a decoded `map[string]interface{}` can hold. A missing
map key reads as `jnull` (Go nil interface). -/
inductive JValue where
  | jnull
  | jstr (s : String)
  | jnum (q : ℚ)
  | jbool (b : Bool)
  | jarr (elems : List JValue)
  | jobj (fields : List (String × JValue))

/-- Go map read `m[k]`: the zero value (nil interface) when absent. -/
def jlookup (fields : List (String × JValue)) (k : String) : JValue :=
  match fields.find? (fun p => p.1 == k) with
  | some p => p.2
  | none => .jnull

/-- Go type assertion `v.(string)`: `none` models the runtime panic. -/
def asString : JValue → Option String
  | .jstr s => some s
  | _ => none

/-- Go type assertion `v.(float64)`. -/
def asNum : JValue → Option ℚ
  | .jnum q => some q
  | _ => none

/-- Go type assertion `v.([]interface\x7b\x7d)`. -/
def asArr : JValue → Option (List JValue)
  | .jarr l => some l
  | _ => none

/-- Go type assertion to a nested JSON object. -/
def asObj : JValue → Option (List (String × JValue))
  | .jobj m => some m
  | _ => none

/-- Go comparison `v != nil` on an interface value. -/
def jIsNull : JValue → Bool
  | .jnull => true
  | _ => false

/-- Go comparison `v == ""` on an interface value: true only when the dynamic
type is string and the value empty. -/
def jIsEmptyStr : JValue → Bool
  | .jstr s => s.isEmpty
  | _ => false

/-- One decoded event as built by `buildEventResponse`. `notBeforeRaw` holds
the raw `NotBefore` string when the time/duration branch ran, `none` when the
field was left at its zero value (the Go `time.Parse` result itself is not
modelled; parse failures only log). -/
structure DecodedEvent where
  eventId : String
  eventType : String
  resourceType : String
  eventStatus : String
  description : String
  eventSource : String
  resources : List String
  notBeforeRaw : Option String
  durationSeconds : ℚ

/-- Decoding of one element of `generic["Events"]` (part_020 lines 337-369).
`none` models a runtime panic from a failed type assertion. -/
def buildEvent (emap : List (String × JValue)) : Option DecodedEvent := do
  let eid ← asString (jlookup emap "EventId")
  let etype ← asString (jlookup emap "EventType")
  let rtype ← asString (jlookup emap "ResourceType")
  let estatus ← asString (jlookup emap "EventStatus")
  let desc ← asString (jlookup emap "Description")
  let esource ← asString (jlookup emap "EventSource")
  let rawResources ← asArr (jlookup emap "Resources")
  let resources ← rawResources.mapM asString
  if !jIsNull (jlookup emap "NotBefore") ||
     !jIsEmptyStr (jlookup emap "DurationInSeconds") then
    let nbRaw ← asString (jlookup emap "NotBefore")
    let dur ← asNum (jlookup emap "DurationInSeconds")
    pure { eventId := eid, eventType := etype, resourceType := rtype,
           eventStatus := estatus, description := desc, eventSource := esource,
           resources := resources, notBeforeRaw := some nbRaw,
           durationSeconds := dur }
  else
    pure { eventId := eid, eventType := etype, resourceType := rtype,
           eventStatus := estatus, description := desc, eventSource := esource,
           resources := resources, notBeforeRaw := none,
           durationSeconds := 0 }

/-- The decoded scheduled-events response. -/
structure DecodedResponse where
  incarnation : ℚ
  events : List DecodedEvent

/-- `buildEventResponse` from pkg/imds (part_020 lines 326-373): unchecked
type assertions over the generically-decoded JSON map. `none` models a
runtime panic. -/
def buildEventResponse (generic : List (String × JValue)) :
    Option DecodedResponse := do
  let inc ← asNum (jlookup generic "DocumentIncarnation")
  let rawEvents ← asArr (jlookup generic "Events")
  let events ← rawEvents.mapM (fun e => do
    let emap ← asObj e
    buildEvent emap)
  pure { incarnation := inc, events := events }

/-! ## Concrete inputs used in counterexamples and witnesses -/

/-- IMDS JSON event map with `NotBefore` absent and `DurationInSeconds`
present, as the metadata service sends for events without a fixed start. -/
def eventMapMissingNotBefore : List (String × JValue) :=
  [("EventId", .jstr "A123-456"),
   ("EventType", .jstr "Freeze"),
   ("ResourceType", .jstr "VirtualMachine"),
   ("EventStatus", .jstr "Scheduled"),
   ("Description", .jstr "freeze maintenance"),
   ("EventSource", .jstr "Platform"),
   ("Resources", .jarr [.jstr "vmss_1"]),
   ("DurationInSeconds", .jnum 5)]

/-- Full scheduled-events JSON response whose single event lacks
`NotBefore`. -/
def respMissingNotBefore : List (String × JValue) :=
  [("DocumentIncarnation", .jnum 1),
   ("Events", .jarr [.jobj eventMapMissingNotBefore])]

/-- Scheduled-events JSON response with every event field present plus an
extra unrecognized field at both levels. -/
def respWithExtraFields : List (String × JValue) :=
  [("DocumentIncarnation", .jnum 1),
   ("SomeNewTopLevelField", .jstr "ignored"),
   ("Events", .jarr [.jobj
     [("EventId", .jstr "A123-456"),
      ("EventType", .jstr "Freeze"),
      ("ResourceType", .jstr "VirtualMachine"),
      ("EventStatus", .jstr "Scheduled"),
      ("Description", .jstr "freeze maintenance"),
      ("EventSource", .jstr "Platform"),
      ("Resources", .jarr [.jstr "vmss_1"]),
      ("NotBefore", .jstr "Mon, 19 Sep 2016 18:29:47 GMT"),
      ("DurationInSeconds", .jnum 5),
      ("SomeNewEventField", .jstr "ignored")]])]

/-! ## C8 — IMDS probe retry policy -/

/-- C8: every metadata-probe invocation made by the drain-decision operations
retries only on clean EOF, with backoff delays 2s then 4s then 8s (each
capped at 10s), makes at most 3 query attempts, and returns any other error
immediately without further attempts. The retry loop is fully characterized
by the outcomes of the first three query attempts. -/
theorem imdsRetryLoop_spec (results : Nat → QueryOutcome) :
    imdsRetryLoop results =
      match results 0, results 1, results 2 with
      | .ok r, _, _ => (.ok r, 1, ([] : List Nat))
      | .otherErr m, _, _ => (.otherErr m, 1, [])
      | .eofErr, .ok r, _ => (.ok r, 2, [2])
      | .eofErr, .otherErr m, _ => (.otherErr m, 2, [2])
      | .eofErr, .eofErr, .ok r => (.ok r, 3, [2, 4])
      | .eofErr, .eofErr, .otherErr m => (.otherErr m, 3, [2, 4])
      | .eofErr, .eofErr, .eofErr => (.eofErr, 3, [2, 4, 8]) := by
  cases h0 : results 0 <;> cases h1 : results 1 <;> cases h2 : results 2 <;>
    simp [imdsRetryLoop, imdsRetryGo, h0, h1, h2]

/-! ## C6 — polling interval ignores the configured value -/

/-- C6 (code bug): the polling driver's tick interval is
`10s + jitter` with `jitter` truncated from `(r - 0.5) * 0.5` seconds; at the
sample `r = 1/2` the interval is exactly 10s, which does not lie in the
claimed window `[pollingInterval - 0.75s, pollingInterval + 0.75s]` for the
default configured `pollingInterval = 30`. The configured interval is never
read by `calculateJitteredInterval`. -/
theorem calculateJitteredInterval_ignores_config :
    calculateJitteredInterval (1/2) = 10000000000 ∧
    ¬(29250000000 ≤ calculateJitteredInterval (1/2) ∧
      calculateJitteredInterval (1/2) ≤ 30750000000) := by
  have h : calculateJitteredInterval (1/2) = 10000000000 := by
    norm_num [calculateJitteredInterval, ratTruncToward0, pollingIntervalConst]
  refine ⟨h, ?_⟩
  rw [h]
  norm_num

/-! ## C7 — JSON decoding panics on missing fields -/

/-- C7 (code bug): the decoder tolerates extra fields, but a response whose
event lacks `NotBefore` makes `buildEventResponse` panic (the
`eventMap["NotBefore"].(string)` assertion on a nil interface), instead of
logging at debug and leaving the field at its zero value: the guard compares
`eventMap["DurationInSeconds"]` against the string `""`, which is true for a
nil interface, so the missing-field branch is entered anyway. -/
theorem buildEventResponse_missing_notBefore :
    (buildEventResponse respWithExtraFields).isSome = true ∧
    buildEventResponse respMissingNotBefore = none := by
  constructor
  · rfl
  · rfl

/-! ## String helper lemmas -/

lemma isPrefixOf_self (l : List Char) : l.isPrefixOf l = true := by
  induction l with
  | nil => rfl
  | cons c t ih => simp [List.isPrefixOf, ih]

lemma containsSub_self (l : List Char) : containsSub l l = true := by
  cases l with
  | nil => rfl
  | cons c t => simp [containsSub, isPrefixOf_self]

lemma goStrContains_self (s : String) : goStrContains s s = true := by
  unfold goStrContains
  exact containsSub_self _

/-- The disjunct `value == instance || strings.Contains(value, instance)`
used by `isNodeImpacted` collapses to the substring test. -/
lemma eq_or_contains (v inst : String) :
    (v == inst || goStrContains v inst) = goStrContains v inst := by
  cases hb : v == inst
  · simp
  · have hv : v = inst := eq_of_beq hb
    subst hv
    simp [goStrContains_self]

/-! ## C9 — instance-name derivation totality -/

/-- C9: `getInstanceName` panics (out-of-range slice) exactly on node names
shorter than six characters; on longer names it returns an error exactly when
the six-character suffix is not parseable as base-36 (per `strconv.ParseInt`
semantics). -/
theorem getInstanceName_spec (name : String) :
    (getInstanceName name = GoResult.panicked ↔ name.length < 6) ∧
    (6 ≤ name.length →
      (getInstanceName name = GoResult.errored ↔
        parseIntBase36 (nodeNameTail6 name) = none)) := by
  by_cases h : name.length < 6
  · constructor
    · simp [getInstanceName, h]
    · intro h6
      omega
  · constructor
    · cases hp : parseIntBase36 (nodeNameTail6 name) <;>
        simp [getInstanceName, h, hp]
    · intro _
      cases hp : parseIntBase36 (nodeNameTail6 name) <;>
        simp [getInstanceName, h, hp]

/-- Witness for C9 at concrete inputs: the two-character name panics; the
ten-character name with an invalid base-36 suffix yields an error value. -/
theorem getInstanceName_spec_witness :
    getInstanceName "vm" = GoResult.panicked ∧
    getInstanceName "vmss0000!0" = GoResult.errored := by
  refine ⟨(getInstanceName_spec "vm").1.mpr (by decide), ?_⟩
  exact ((getInstanceName_spec "vmss0000!0").2 (by decide)).mpr (by decide)

/-! ## C10 — substring matching of instance names -/

/-- Reboot event that targets only the instance named `vmss_10`. -/
def rebootEventVmss10 : ScheduledEvent :=
  { eventId := "C10-0001", eventType := "Reboot",
    resourceType := "VirtualMachine", resources := ["vmss_10"],
    eventStatus := "Scheduled", description := "reboot maintenance",
    eventSource := "Platform", durationSeconds := 5 }

/-- Freeze event whose resource string merely embeds `vmss_1`. -/
def freezeEventEmbedded : ScheduledEvent :=
  { eventId := "C10-0002", eventType := "Freeze",
    resourceType := "VirtualMachine", resources := ["zz_vmss_1_zz"],
    eventStatus := "Scheduled", description := "freeze maintenance",
    eventSource := "Platform", durationSeconds := 5 }

/-- Policy enabling drain for every scheduled event kind. -/
def policyAllOn : ScheduledEventDrainConditions :=
  { freeze := true, reboot := true, redeploy := true, preempt := true,
    terminate := true, liveMigration := true }

/-- C10: for a "VirtualMachine" event, `isNodeImpacted` reports impact
exactly when some resource string contains the derived instance name as a
substring; in particular node `vmss000001` (instance `vmss_1`) is matched by
an event targeting only `vmss_10`, and with rebooting enabled that event
drives `CheckIfDrainRequired` to true. -/
theorem isNodeImpacted_substring_spec :
    (∀ (nodeName inst : String) (ev : ScheduledEvent),
        getInstanceName nodeName = GoResult.ok inst →
        isNodeImpacted nodeName ev =
          GoResult.ok (ev.resourceType == "VirtualMachine" &&
            ev.resources.any (fun v => goStrContains v inst))) ∧
    isNodeImpacted "vmss000001" rebootEventVmss10 = GoResult.ok true ∧
    checkIfDrainRequiredEvents "vmss000001" policyAllOn [rebootEventVmss10] =
      GoResult.ok true := by
  refine ⟨?_, by decide, by decide⟩
  intro nodeName inst ev h
  simp only [isNodeImpacted, h, eq_or_contains]

/-- Witness for C10: the general characterization applied to node
`vmss000001` and an event whose resource string only embeds `vmss_1`. -/
theorem isNodeImpacted_substring_spec_witness :
    isNodeImpacted "vmss000001" freezeEventEmbedded = GoResult.ok true := by
  have h := isNodeImpacted_substring_spec.1 "vmss000001" "vmss_1"
    freezeEventEmbedded (by decide)
  exact h.trans (by decide)

/-! ## C1 — freeze / live-migration drain decision -/

/-- The live-migration description IMDS sends for memory-preserving live
migrations. -/
def lmDescription : String :=
  "Virtual machine is being paused because of a memory-preserving Live Migration operation."

/-- Policy with every scheduled-event kind disabled, in particular
`Freeze = false` and `LiveMigration = false`. -/
def policyAllOff : ScheduledEventDrainConditions :=
  { freeze := false, reboot := false, redeploy := false, preempt := false,
    terminate := false, liveMigration := false }

/-- Policy with only `Freeze` enabled. -/
def policyFreezeOnly : ScheduledEventDrainConditions :=
  { freeze := true, reboot := false, redeploy := false, preempt := false,
    terminate := false, liveMigration := false }

/-- Live-migration Freeze event targeting instance `vmss_1`. -/
def lmFreezeEvent : ScheduledEvent :=
  { eventId := "C1-0001", eventType := "Freeze",
    resourceType := "VirtualMachine", resources := ["vmss_1"],
    eventStatus := "Scheduled", description := lmDescription,
    eventSource := "Platform", durationSeconds := 5 }

/-- Regular (non-live-migration) Freeze event targeting instance `vmss_1`. -/
def regularFreezeEvent : ScheduledEvent :=
  { eventId := "C1-0002", eventType := "Freeze",
    resourceType := "VirtualMachine", resources := ["vmss_1"],
    eventStatus := "Scheduled", description := "freeze maintenance",
    eventSource := "Platform", durationSeconds := 5 }

/-- Counterexample to C1: with `LiveMigration = false` (and `Freeze = false`)
the claim demands no drain for a live-migration Freeze event targeting this
VM, yet `CheckIfDrainRequired` returns true — it never consults the
`LiveMigration` policy flag. -/
theorem checkIfDrainRequired_lm_counterexample :
    policyAllOff.liveMigration = false ∧ policyAllOff.freeze = false ∧
    checkIfDrainRequiredEvents "vmss000001" policyAllOff [lmFreezeEvent] =
      GoResult.ok true := by
  refine ⟨rfl, rfl, by decide⟩

/-- C1 amended: for a single Freeze event targeting this VM,
`CheckIfDrainRequired` drains iff `policy.Freeze` is true **or** the
description contains "memory-preserving Live Migration"; the
`policy.LiveMigration` flag is not consulted (that disambiguation lives only
in `CheckIfFreezeOrLiveMigration`). For a non-live-migration Freeze event
this reduces to draining iff `policy.Freeze`, as the claim states. -/
theorem checkIfDrainRequired_freeze_spec
    (sdc : ScheduledEventDrainConditions) (nodeName inst : String)
    (ev : ScheduledEvent)
    (hinst : getInstanceName nodeName = GoResult.ok inst)
    (hrt : ev.resourceType = "VirtualMachine")
    (himp : ev.resources.any (fun v => v == inst || goStrContains v inst) = true)
    (hft : ev.eventType = "Freeze") :
    checkIfDrainRequiredEvents nodeName sdc [ev] =
      GoResult.ok (sdc.freeze || goStrContains ev.description lmPhrase) := by
  cases hf : sdc.freeze <;>
    cases hc : goStrContains ev.description lmPhrase <;>
      simp [checkIfDrainRequiredEvents, drainLoop, isNodeImpacted,
        eventDrainableConditions, hinst, hrt, himp, hft, hf, hc]

/-- Witness for the amended C1: a regular freeze with `Freeze = true` drains,
and the same event under the all-off policy does not. -/
theorem checkIfDrainRequired_freeze_spec_witness :
    checkIfDrainRequiredEvents "vmss000001" policyFreezeOnly
      [regularFreezeEvent] = GoResult.ok true ∧
    checkIfDrainRequiredEvents "vmss000001" policyAllOff
      [regularFreezeEvent] = GoResult.ok false := by
  constructor
  · exact (checkIfDrainRequired_freeze_spec policyFreezeOnly "vmss000001"
      "vmss_1" regularFreezeEvent (by decide) rfl (by decide) rfl).trans
      (by decide)
  · exact (checkIfDrainRequired_freeze_spec policyAllOff "vmss000001"
      "vmss_1" regularFreezeEvent (by decide) rfl (by decide) rfl).trans
      (by decide)

/-! ## C4 — condition evaluator characterization -/

/-- Invariant-carrying characterization of the `CheckNodeConditions` loop:
starting from accumulators `(eventResp, drainableResp) = (e, d)` with
`e → d`, the loop computes the disjunction of the accumulator with the
existence of a condition of status True in the respective name set. -/
lemma checkConditionsLoop_spec (sched opt : List String) :
    ∀ (conds : List NodeCondition) (e d : Bool), (e = true → d = true) →
      checkConditionsLoop sched opt conds e d =
        (d || conds.any (fun c =>
           (sched.contains c.condType || opt.contains c.condType) &&
           (c.status == ConditionStatus.condTrue)),
         e || conds.any (fun c =>
           sched.contains c.condType &&
           (c.status == ConditionStatus.condTrue))) := by
  intro conds
  induction conds with
  | nil =>
    intro e d h
    simp [checkConditionsLoop]
  | cons c rest ih =>
    intro e d h
    have ih_tt := ih true true (fun _ => rfl)
    have ih_ft := ih false true (fun _ => rfl)
    have ih_ff := ih false false (fun hq => hq)
    cases e with
    | true =>
      have hd : d = true := h rfl
      subst hd
      simp [checkConditionsLoop]
    | false =>
      cases d with
      | true =>
        by_cases hs : c.condType ∈ sched
        · by_cases ht : c.status = ConditionStatus.condTrue
          · have ht2 : (c.status == ConditionStatus.condTrue) = true := by
              simp [ht]
            simp [checkConditionsLoop, hs, ht, ht2, ih_tt]
          · have ht2 : (c.status == ConditionStatus.condTrue) = false := by
              simp [ht]
            simp [checkConditionsLoop, hs, ht, ht2, ih_ft]
        · simp [checkConditionsLoop, hs, ih_ft]
      | false =>
        by_cases hs : c.condType ∈ sched
        · by_cases ht : c.status = ConditionStatus.condTrue
          · have ht2 : (c.status == ConditionStatus.condTrue) = true := by
              simp [ht]
            simp [checkConditionsLoop, hs, ht, ht2, ih_tt]
          · have ht2 : (c.status == ConditionStatus.condTrue) = false := by
              simp [ht]
            by_cases ho : c.condType ∈ opt
            · simp [checkConditionsLoop, hs, ht, ht2, ho, ih_ff]
            · simp [checkConditionsLoop, hs, ht, ht2, ho, ih_ff]
        · by_cases ho : c.condType ∈ opt
          · by_cases ht : c.status = ConditionStatus.condTrue
            · have ht2 : (c.status == ConditionStatus.condTrue) = true := by
                simp [ht]
              simp [checkConditionsLoop, hs, ho, ht, ht2, ih_ft]
            · have ht2 : (c.status == ConditionStatus.condTrue) = false := by
                simp [ht]
              simp [checkConditionsLoop, hs, ho, ht, ht2, ih_ff]
          · simp [checkConditionsLoop, hs, ho, ih_ff]

/-- C4: `CheckNodeConditions` is a pure function of the node conditions and
the policy; `eventResp` is true iff some condition whose name lies in the
scheduled set (`VMEventScheduled` plus the policy-enabled kind-specific
names) has status True, `drainableResp` is true iff some condition in the
scheduled or enabled optional set has status True; conditions with status
False or Unknown never contribute. -/
theorem checkNodeConditions_spec (conds : List NodeCondition)
    (edc : ScheduledEventDrainConditions) (odc : OptionalDrainConditions) :
    checkNodeConditions conds edc odc =
      (conds.any (fun c =>
         (("VMEventScheduled" :: edc.drainableConditions).contains c.condType
            || odc.optionalDrainableConditions.contains c.condType) &&
         (c.status == ConditionStatus.condTrue)),
       conds.any (fun c =>
         ("VMEventScheduled" :: edc.drainableConditions).contains c.condType &&
         (c.status == ConditionStatus.condTrue))) := by
  have h := checkConditionsLoop_spec
    ("VMEventScheduled" :: edc.drainableConditions)
    odc.optionalDrainableConditions conds false false
    (fun hq => by cases hq)
  simpa [checkNodeConditions] using h

/-! ## C5 — cordon post-conditions -/

/-- A node already cordoned by someone else: unschedulable, no ownership
label. -/
def foreignCordonedNode : KNode :=
  { unschedulable := true, mechanicCordonLabel := none, conditions := [] }

/-- A schedulable node without the ownership label. -/
def schedulableUnlabeledNode : KNode :=
  { unschedulable := false, mechanicCordonLabel := none, conditions := [] }

/-- Agent state at the start of an act phase with a pending drain. -/
def stateDrainPending : AgentState :=
  { hasDrainableCondition := true, conditionIsScheduledEvent := false,
    isCordoned := false, isDrained := false, shouldDrain := true }

/-- Counterexample to C5: on a node that is already unschedulable without the
ownership label, `cordonNode` reports success (`cordoned=true`, nil error)
yet the post-state node carries no `mechanic.cordoned` label — the claimed
universal post-condition fails for adopted foreign cordons. -/
theorem cordonNode_success_without_label :
    (cordonNode Faults.clean stateDrainPending foreignCordonedNode
        foreignCordonedNode).1 = (true, none) ∧
    (cordonNode Faults.clean stateDrainPending foreignCordonedNode
        foreignCordonedNode).2.2.1.mechanicCordonLabel = none := by
  decide

/-- C5 amended: a successful cordon that actually performed the cordon write
(the node was not already unschedulable) leaves the node unschedulable and
labeled `mechanic.cordoned="true"`; when the node is already unschedulable
the call succeeds with no write and the node — label or not — is returned
unchanged (foreign cordons are adopted). -/
theorem cordonNode_post_spec (f : Faults) (st : AgentState)
    (snap live : KNode) :
    (snap.unschedulable = false →
      (cordonNode f st snap live).1 = (true, none) →
      (cordonNode f st snap live).2.2.1.unschedulable = true ∧
      (cordonNode f st snap live).2.2.1.mechanicCordonLabel = some "true") ∧
    (snap.unschedulable = true →
      (cordonNode f st snap live).1 = (true, none) ∧
      (cordonNode f st snap live).2.2.1 = live) := by
  constructor
  · intro hsnap hok
    cases hcu : f.cordonUpdateConflict
    · cases hcr : f.cordonRefetchErr
      · simp [cordonNode, hsnap, hcu, hcr]
      · simp [cordonNode, hsnap, hcu, hcr] at hok
    · simp [cordonNode, hsnap, hcu] at hok
  · intro hsnap
    simp [cordonNode, hsnap]

/-- Witness for the amended C5: a clean cordon of a schedulable node leaves
it unschedulable and labeled. -/
theorem cordonNode_post_spec_witness :
    (cordonNode Faults.clean stateDrainPending schedulableUnlabeledNode
        schedulableUnlabeledNode).2.2.1.unschedulable = true ∧
    (cordonNode Faults.clean stateDrainPending schedulableUnlabeledNode
        schedulableUnlabeledNode).2.2.1.mechanicCordonLabel = some "true" :=
  (cordonNode_post_spec Faults.clean stateDrainPending
    schedulableUnlabeledNode schedulableUnlabeledNode).1 rfl (by decide)

/-! ## C2 — act phase after a cordon failure -/

/-- Faults where the cordon read-modify-write exhausts its retries. -/
def faultsCordonFails : Faults :=
  { Faults.clean with cordonUpdateConflict := true }

/-- Counterexample to C2: with a pending drain, a failing cordon write and a
succeeding drain helper, the act phase emits the Warning event but still
invokes the drain, ending with `isDrained = true` while
`isCordoned = false`. -/
theorem handleNodeCordonAndDrain_drains_after_cordon_failure :
    RecorderEvent.mk "Warning" "CordonNode" ∈
      (handleNodeCordonAndDrain faultsCordonFails stateDrainPending
        schedulableUnlabeledNode schedulableUnlabeledNode).2.2.1 ∧
    ClusterAct.drainCall ∈
      (handleNodeCordonAndDrain faultsCordonFails stateDrainPending
        schedulableUnlabeledNode schedulableUnlabeledNode).2.2.2 ∧
    (handleNodeCordonAndDrain faultsCordonFails stateDrainPending
        schedulableUnlabeledNode schedulableUnlabeledNode).1.isDrained = true ∧
    (handleNodeCordonAndDrain faultsCordonFails stateDrainPending
        schedulableUnlabeledNode schedulableUnlabeledNode).1.isCordoned
      = false := by
  decide

/-- C2 amended: in an act phase with a pending drain on a schedulable node,
a cordon failure emits a Warning `CordonNode` event and leaves `isCordoned`
false, but the reconciler still invokes the drain in the same pass; if the
drain succeeds the pass ends with `isDrained = true` and `isCordoned =
false`, so `isDrained ⇒ isCordoned` does not hold. -/
theorem handleNodeCordonAndDrain_cordon_failure_spec
    (f : Faults) (st : AgentState) (snap live : KNode)
    (h1 : st.hasDrainableCondition = true) (h2 : st.shouldDrain = true)
    (h3 : st.isCordoned = false) (h4 : st.isDrained = false)
    (h5 : snap.unschedulable = false) (h6 : f.cordonUpdateConflict = true)
    (h7 : live.unschedulable = false) :
    RecorderEvent.mk "Warning" "CordonNode" ∈
      (handleNodeCordonAndDrain f st snap live).2.2.1 ∧
    ClusterAct.drainCall ∈ (handleNodeCordonAndDrain f st snap live).2.2.2 ∧
    (f.drainErr = false →
      (handleNodeCordonAndDrain f st snap live).1.isDrained = true ∧
      (handleNodeCordonAndDrain f st snap live).1.isCordoned = false) := by
  cases hd : f.drainErr <;> cases hre : f.refetchErr <;>
    simp [handleNodeCordonAndDrain, cordonNode, drainNode, validateCordon,
      h1, h2, h3, h4, h5, h6, h7, hd, hre]

/-- Witness for the amended C2 at the concrete failing pass. -/
theorem handleNodeCordonAndDrain_cordon_failure_spec_witness :
    ClusterAct.drainCall ∈
      (handleNodeCordonAndDrain faultsCordonFails stateDrainPending
        schedulableUnlabeledNode schedulableUnlabeledNode).2.2.2 :=
  (handleNodeCordonAndDrain_cordon_failure_spec faultsCordonFails
    stateDrainPending schedulableUnlabeledNode schedulableUnlabeledNode
    rfl rfl rfl rfl rfl rfl rfl).2.1

/-! ## C3 — cordon-ownership reconciliation -/

/-- Agent state with no drainable condition but a believed cordon. -/
def stateCordonedNoEvent : AgentState :=
  { hasDrainableCondition := false, conditionIsScheduledEvent := false,
    isCordoned := true, isDrained := false, shouldDrain := false }

/-- A schedulable node still carrying the ownership label. -/
def schedulableLabeledNode : KNode :=
  { unschedulable := false, mechanicCordonLabel := some "true",
    conditions := [] }

/-- Counterexample to C3: with no drainable condition, a schedulable node
without the ownership label while `isCordoned = true` leaves `isCordoned`
at true — `validateCordon` does not mark it false as the claim states (the
drift row is not implemented). -/
theorem validateCordon_drift_counterexample :
    (validateCordon Faults.clean stateCordonedNoEvent
        schedulableUnlabeledNode schedulableUnlabeledNode).1.isCordoned
      = true ∧
    (validateCordon Faults.clean stateCordonedNoEvent
        schedulableUnlabeledNode schedulableUnlabeledNode).2.2.2 = [] := by
  decide

/-- C3 amended: with no drainable condition, `validateCordon` invokes an
uncordon only when the node carries the `mechanic.cordoned` label; and when
the node is schedulable while `isCordoned` is true, the behavior depends on
the label: with the label present it performs an uncordon — a cluster
write — and on success marks `isCordoned = false`; with the label absent it
performs no cluster action and `isCordoned` remains true. -/
theorem validateCordon_ownership_spec
    (f : Faults) (st : AgentState) (snap live : KNode)
    (h1 : st.hasDrainableCondition = false) :
    (ClusterAct.uncordonCall ∈ (validateCordon f st snap live).2.2.2 →
      snap.mechanicCordonLabel.isSome = true) ∧
    (st.isCordoned = true → snap.unschedulable = false →
      (snap.mechanicCordonLabel.isSome = true →
        ClusterAct.uncordonWrite ∈ (validateCordon f st snap live).2.2.2 ∧
        (f.uncordonUpdateConflict = false →
          (validateCordon f st snap live).1.isCordoned = false)) ∧
      (snap.mechanicCordonLabel = none →
        (validateCordon f st snap live).1.isCordoned = true ∧
        (validateCordon f st snap live).2.2.2 = [])) := by
  constructor
  · intro hmem
    cases hl : snap.mechanicCordonLabel with
    | some v => rfl
    | none =>
      exfalso
      cases hc : st.isCordoned <;> cases hu : snap.unschedulable <;>
        simp [validateCordon, h1, hl, hc, hu] at hmem
  · intro hc hu
    constructor
    · intro hl
      cases hlv : snap.mechanicCordonLabel with
      | none => rw [hlv] at hl; simp at hl
      | some v =>
        cases hcf : f.uncordonUpdateConflict <;>
          cases hsd : st.shouldDrain <;> cases hdr : st.isDrained <;>
            simp [validateCordon, uncordonNode, h1, hc, hu, hlv, hcf, hsd, hdr]
    · intro hl
      cases hsd : st.shouldDrain <;> cases hdr : st.isDrained <;>
        simp [validateCordon, h1, hc, hu, hl, hsd, hdr]

/-- Witness for the amended C3: on a schedulable labeled node with
`isCordoned` believed true and no drainable condition, the reconciliation
performs the uncordon write. -/
theorem validateCordon_ownership_spec_witness :
    ClusterAct.uncordonWrite ∈
      (validateCordon Faults.clean stateCordonedNoEvent
        schedulableLabeledNode schedulableLabeledNode).2.2.2 :=
  (((validateCordon_ownership_spec Faults.clean stateCordonedNoEvent
    schedulableLabeledNode schedulableLabeledNode rfl).2 rfl rfl).1 rfl).1

end Mechanic
